import Mathlib

/-!
Shallow embedding of `src/runtime/libtestergame.cpp`, the SFML-independent
test runtime of the makergame repository.

The C++ file consists of:
  * a process-wide flag `game_ended` (initially `false`) and a constant
    `max_steps = 1000`;
  * a family of C runtime operations exposed to game logic: `print`,
    `printb`, `print_float`, `printstr` (one stdout line per call),
    `load_sound` / `load_image` (always return the null pointer),
    `play_sound` / `loop_sound` / `set_sprite_position` / `draw_sprite`
    (no-ops), `end_game` (sets the flag), `key_pressed` (always `false`);
  * `main`, which calls the external hook `global_create()` once and then
    loops `global_step(); global_draw(); ++num_steps;`, returning `1` with a
    diagnostic on stderr when `num_steps >= max_steps` after the increment,
    and returning `0` when the `while (!game_ended)` condition fails.

The mutable process state visible to the runtime operations is modelled by
`RTState` (the completion flag plus the standard-output line list; the error
stream is written only by `main` itself and is therefore carried in the
driver's result, not in `RTState`).  The externally supplied game logic —
the hooks `global_create`, `global_step`, `global_draw`, each ordinary C
code with its own globals — is modelled by a `GameLogic σ`: three state
transformers over the game's own state `σ` paired with `RTState`.  The
driver additionally records a ghost trace of hook invocations so that
ordering claims can be stated.
-/

set_option linter.unusedVariables false

namespace LibTesterGame

/-- One line written to the standard output stream by one of the print
operations.  The exact `printf` rendering is irrelevant to every claim, so a
line is kept as the tagged value that was printed. -/
inductive OutLine
  | int (x : Int)
  | bool (b : Bool)
  | float (x : Float)
  | str (s : String)

/-- Resource handle, modelling the C `void *`; `none` models the null
pointer that the stub loaders return. -/
abbrev Handle := Option Nat

/-- Process state visible to the runtime library operations: the
`game_ended` flag and the standard output stream (a list of lines in call
order). -/
structure RTState where
  game_ended : Bool
  stdout : List OutLine

/-- State at process start: `static bool game_ended = false;` and an empty
output stream. -/
def RTState.init : RTState := { game_ended := false, stdout := [] }

/-- C++ `void print(int x) { printf("%d\n", x); }`. -/
def print (x : Int) (s : RTState) : RTState :=
  { s with stdout := s.stdout ++ [OutLine.int x] }

/-- C++ `void printb(bool x)`: prints `true` or `false` on one line. -/
def printb (b : Bool) (s : RTState) : RTState :=
  { s with stdout := s.stdout ++ [OutLine.bool b] }

/-- C++ `void print_float(double x) { printf("%f\n", x); }`. -/
def print_float (x : Float) (s : RTState) : RTState :=
  { s with stdout := s.stdout ++ [OutLine.float x] }

/-- C++ `void printstr(char *x) { printf("%s\n", x); }`. -/
def printstr (x : String) (s : RTState) : RTState :=
  { s with stdout := s.stdout ++ [OutLine.str x] }

/-- C++ `void *load_sound(const char *filename) { return nullptr; }`. -/
def load_sound (filename : String) : Handle := none

/-- C++ `void play_sound(void *sound) { }`. -/
def play_sound (sound : Handle) (s : RTState) : RTState := s

/-- C++ `void loop_sound(void *sound) { }`. -/
def loop_sound (sound : Handle) (s : RTState) : RTState := s

/-- C++ `void *load_image(const char *filename) { return nullptr; }`. -/
def load_image (filename : String) : Handle := none

/-- C++ `void set_sprite_position(void *s, double x, double y) { }`. -/
def set_sprite_position (sp : Handle) (x y : Float) (s : RTState) : RTState := s

/-- C++ `void draw_sprite(void *sprite) { }`. -/
def draw_sprite (sprite : Handle) (s : RTState) : RTState := s

/-- C++ `void end_game() { game_ended = true; }`. -/
def end_game (s : RTState) : RTState := { s with game_ended := true }

/-- C++ `bool key_pressed(int code) { return false; }`. -/
def key_pressed (code : Int) : Bool := false

/-- C++ `static const int max_steps = 1000;`. -/
def max_steps : Nat := 1000

/-- The diagnostic line `main` writes to stderr when the step ceiling is
reached (the two adjacent C string literals concatenated, without the
trailing newline, which ends the line). -/
def failureMsg : String :=
  "FAILURE: Exceed max number of steps allowed for test. Did you forget to call end_game()?"

/-- The externally supplied game logic: the three hooks `global_create`,
`global_step`, `global_draw`.  Each is ordinary code with access to its own
state `σ` (its globals) and to the runtime operations above, hence is
modelled as a state transformer on `σ × RTState`. -/
structure GameLogic (σ : Type) where
  create : σ → RTState → σ × RTState
  step : σ → RTState → σ × RTState
  draw : σ → RTState → σ × RTState

/-- Ghost event recording one hook invocation by the driver. -/
inductive Event
  | create
  | step
  | draw
deriving DecidableEq, Repr

/-- Result of running `main`: the process exit status, the final game and
runtime states, the final value of the loop counter `num_steps`, the ghost
trace of hook invocations in order, and the lines `main` wrote to the error
stream. -/
structure DriverResult (σ : Type) where
  exitCode : Nat
  game : σ
  rt : RTState
  num_steps : Nat
  trace : List Event
  err : List String

/-- One loop iteration body without the exit tests: `global_step();
global_draw();` applied to the paired game/runtime state. -/
def cycleStep {σ : Type} (g : GameLogic σ) (p : σ × RTState) : σ × RTState :=
  g.draw (g.step p.1 p.2).1 (g.step p.1 p.2).2

/-- The paired state after `k` step/draw cycles. -/
def iterCycles {σ : Type} (g : GameLogic σ) : Nat → σ × RTState → σ × RTState
  | 0, p => p
  | k + 1, p => iterCycles g k (cycleStep g p)

/-- The completion flag as the driver would observe it after the create hook
and then `j` step/draw cycles, starting from `RTState.init`. -/
def endedAfter {σ : Type} (g : GameLogic σ) (init : σ) (j : Nat) : Bool :=
  (iterCycles g j (g.create init RTState.init)).2.game_ended

/-- Ghost trace of `k` step/draw cycles, in chronological order. -/
def stepDrawTrace : Nat → List Event
  | 0 => []
  | k + 1 => Event.step :: Event.draw :: stepDrawTrace k

/-- Prepends the ghost events of one step/draw cycle to a result's trace. -/
def consPair {σ : Type} (r : DriverResult σ) : DriverResult σ :=
  { r with trace := Event.step :: Event.draw :: r.trace }

/-- Prepends the ghost event of the create hook to a result's trace. -/
def consCreate {σ : Type} (r : DriverResult σ) : DriverResult σ :=
  { r with trace := Event.create :: r.trace }

/-- The `while (!game_ended)` loop of `main`, entered with counter value
`num_steps`.  Faithful to the C++ control flow: the condition is tested
first; the body runs `global_step(); global_draw(); ++num_steps;` and then
tests `num_steps >= max_steps`, returning `1` with the diagnostic when it
holds; otherwise the loop repeats.  Falling out of the loop returns `0`
(the `return 0;` at the end of `main`). -/
def mainLoop {σ : Type} (g : GameLogic σ) (gs : σ) (rt : RTState)
    (num_steps : Nat) : DriverResult σ :=
  if rt.game_ended then
    ⟨0, gs, rt, num_steps, [], []⟩
  else if hstop : max_steps ≤ num_steps + 1 then
    ⟨1, (cycleStep g (gs, rt)).1, (cycleStep g (gs, rt)).2, num_steps + 1,
      [Event.step, Event.draw], [failureMsg]⟩
  else
    consPair (mainLoop g (cycleStep g (gs, rt)).1 (cycleStep g (gs, rt)).2
      (num_steps + 1))
termination_by max_steps - num_steps
decreasing_by omega

/-- C++ `int main()`: call `global_create()`, initialise `num_steps = 0`,
run the loop. -/
def main {σ : Type} (g : GameLogic σ) (init : σ) : DriverResult σ :=
  consCreate
    (mainLoop g (g.create init RTState.init).1 (g.create init RTState.init).2 0)

/-- Game logic whose three hooks do nothing (never calls `end_game`). -/
def noopGame : GameLogic Unit :=
  { create := fun s rt => (s, rt)
  , step := fun s rt => (s, rt)
  , draw := fun s rt => (s, rt) }

/-- Game logic that counts its step-hook invocations in its own state and
calls `end_game` during the `K`-th one; create and draw do nothing. -/
def endsAt (K : Nat) : GameLogic Nat :=
  { create := fun c rt => (c, rt)
  , step := fun c rt => (c + 1, if c + 1 = K then end_game rt else rt)
  , draw := fun c rt => (c, rt) }

/-- Game logic whose create hook itself calls `end_game`. -/
def endsInCreate : GameLogic Unit :=
  { create := fun s rt => (s, end_game rt)
  , step := fun s rt => (s, rt)
  , draw := fun s rt => (s, rt) }

/-! ### Unfolding lemmas for the driver loop -/

theorem mainLoop_of_ended {σ : Type} (g : GameLogic σ) (gs : σ) (rt : RTState)
    (n : Nat) (h : rt.game_ended = true) :
    mainLoop g gs rt n = ⟨0, gs, rt, n, [], []⟩ := by
  unfold mainLoop
  simp [h]

theorem mainLoop_of_ceiling {σ : Type} (g : GameLogic σ) (gs : σ) (rt : RTState)
    (n : Nat) (h : rt.game_ended = false) (h2 : max_steps ≤ n + 1) :
    mainLoop g gs rt n =
      ⟨1, (cycleStep g (gs, rt)).1, (cycleStep g (gs, rt)).2, n + 1,
        [Event.step, Event.draw], [failureMsg]⟩ := by
  unfold mainLoop
  simp [h, h2]

theorem mainLoop_of_continue {σ : Type} (g : GameLogic σ) (gs : σ) (rt : RTState)
    (n : Nat) (h : rt.game_ended = false) (h2 : ¬ max_steps ≤ n + 1) :
    mainLoop g gs rt n =
      consPair (mainLoop g (cycleStep g (gs, rt)).1 (cycleStep g (gs, rt)).2
        (n + 1)) := by
  conv_lhs => unfold mainLoop
  simp [h, h2]

/-! ### Iteration lemmas -/

theorem iterCycles_succ_last {σ : Type} (g : GameLogic σ) :
    ∀ (k : Nat) (p : σ × RTState),
      iterCycles g (k + 1) p = cycleStep g (iterCycles g k p) := by
  intro k
  induction k with
  | zero => intro p; rfl
  | succ k ih =>
    intro p
    show iterCycles g (k + 1) (cycleStep g p) = _
    rw [ih]
    rfl

/-- If the completion flag is unset at the checks before each of the first
`k` cycles, is set after the `k`-th cycle, and the counter stays strictly
below the ceiling, the loop returns `0` after exactly those `k` cycles with
nothing on the error stream. -/
theorem mainLoop_success {σ : Type} (g : GameLogic σ) :
    ∀ (k n : Nat) (gs : σ) (rt : RTState), n + k < max_steps →
      (∀ j, j < k → (iterCycles g j (gs, rt)).2.game_ended = false) →
      (iterCycles g k (gs, rt)).2.game_ended = true →
      mainLoop g gs rt n =
        ⟨0, (iterCycles g k (gs, rt)).1, (iterCycles g k (gs, rt)).2, n + k,
          stepDrawTrace k, []⟩ := by
  intro k
  induction k with
  | zero =>
    intro n gs rt hlt hbefore hend
    exact mainLoop_of_ended g gs rt n hend
  | succ k ih =>
    intro n gs rt hlt hbefore hend
    have h0 : rt.game_ended = false := hbefore 0 (Nat.succ_pos k)
    rw [mainLoop_of_continue g gs rt n h0 (by omega)]
    have hrec := ih (n + 1) (cycleStep g (gs, rt)).1 (cycleStep g (gs, rt)).2
      (by omega) (fun j hj => hbefore (j + 1) (by omega)) hend
    rw [Prod.mk.eta] at hrec
    rw [hrec]
    show consPair _ =
      ⟨0, (iterCycles g k (cycleStep g (gs, rt))).1,
        (iterCycles g k (cycleStep g (gs, rt))).2, n + (k + 1),
        stepDrawTrace (k + 1), []⟩
    simp only [consPair, stepDrawTrace]
    have hns : n + 1 + k = n + (k + 1) := by omega
    rw [hns]

/-- If the completion flag is unset at every check the loop performs before
the counter reaches the ceiling, the loop returns `1` with the diagnostic,
after exactly the cycles needed to take the counter to `max_steps` — even
when the flag becomes set during the final cycle. -/
theorem mainLoop_maxed {σ : Type} (g : GameLogic σ) :
    ∀ (k n : Nat) (gs : σ) (rt : RTState), 0 < k → n + k = max_steps →
      (∀ j, j < k → (iterCycles g j (gs, rt)).2.game_ended = false) →
      mainLoop g gs rt n =
        ⟨1, (iterCycles g k (gs, rt)).1, (iterCycles g k (gs, rt)).2,
          max_steps, stepDrawTrace k, [failureMsg]⟩ := by
  intro k
  induction k with
  | zero => intro n gs rt hpos; omega
  | succ k ih =>
    intro n gs rt hpos hsum hbefore
    have h0 : rt.game_ended = false := hbefore 0 (Nat.succ_pos k)
    by_cases hk : k = 0
    · subst hk
      rw [mainLoop_of_ceiling g gs rt n h0 (by omega)]
      have hns : n + 1 = max_steps := by omega
      show (⟨1, (cycleStep g (gs, rt)).1, (cycleStep g (gs, rt)).2, n + 1,
        [Event.step, Event.draw], [failureMsg]⟩ : DriverResult σ) = _
      rw [hns]
      rfl
    · rw [mainLoop_of_continue g gs rt n h0 (by omega)]
      have hrec := ih (n + 1) (cycleStep g (gs, rt)).1 (cycleStep g (gs, rt)).2
        (by omega) (by omega) (fun j hj => hbefore (j + 1) (by omega))
      rw [Prod.mk.eta] at hrec
      rw [hrec]
      show consPair _ =
        ⟨1, (iterCycles g k (cycleStep g (gs, rt))).1,
          (iterCycles g k (cycleStep g (gs, rt))).2, max_steps,
          stepDrawTrace (k + 1), [failureMsg]⟩
      simp only [consPair, stepDrawTrace]

/-- Unconditionally, the loop's ghost trace is a sequence of step/draw
pairs and the final counter is the initial counter plus the number of
pairs. -/
theorem mainLoop_shape {σ : Type} (g : GameLogic σ) :
    ∀ (d n : Nat) (gs : σ) (rt : RTState), max_steps ≤ n + d →
      ∃ k, (mainLoop g gs rt n).num_steps = n + k ∧
        (mainLoop g gs rt n).trace = stepDrawTrace k := by
  intro d
  induction d with
  | zero =>
    intro n gs rt hd
    by_cases h0 : rt.game_ended = true
    · rw [mainLoop_of_ended g gs rt n h0]
      exact ⟨0, by simp [stepDrawTrace]⟩
    · rw [mainLoop_of_ceiling g gs rt n (by simpa using h0) (by omega)]
      exact ⟨1, by simp [stepDrawTrace]⟩
  | succ d ih =>
    intro n gs rt hd
    by_cases h0 : rt.game_ended = true
    · rw [mainLoop_of_ended g gs rt n h0]
      exact ⟨0, by simp [stepDrawTrace]⟩
    · by_cases h2 : max_steps ≤ n + 1
      · rw [mainLoop_of_ceiling g gs rt n (by simpa using h0) h2]
        exact ⟨1, by simp [stepDrawTrace]⟩
      · rw [mainLoop_of_continue g gs rt n (by simpa using h0) h2]
        obtain ⟨k, hn, ht⟩ := ih (n + 1) (cycleStep g (gs, rt)).1
          (cycleStep g (gs, rt)).2 (by omega)
        refine ⟨k + 1, ?_, ?_⟩
        · simp only [consPair]
          rw [hn]
          omega
        · simp only [consPair, stepDrawTrace]
          rw [ht]

/-! ### Concrete game logics -/

theorem noopGame_iter : ∀ (j : Nat) (p : Unit × RTState),
    iterCycles noopGame j p = p := by
  intro j
  induction j with
  | zero => intro p; rfl
  | succ j ih => intro p; exact ih p

theorem endsAt_iter (K : Nat) : ∀ (j c : Nat) (rt : RTState), c + j < K →
    iterCycles (endsAt K) j (c, rt) = (c + j, rt) := by
  intro j
  induction j with
  | zero => intro c rt h; rfl
  | succ j ih =>
    intro c rt h
    have hne : ¬ (c + 1 = K) := by omega
    have hc : cycleStep (endsAt K) (c, rt) = (c + 1, rt) := by
      simp [cycleStep, endsAt, hne]
    show iterCycles (endsAt K) j (cycleStep (endsAt K) (c, rt)) = _
    rw [hc, ih (c + 1) rt (by omega)]
    have hcc : c + 1 + j = c + (j + 1) := by omega
    rw [hcc]

theorem endsAt_hits (K : Nat) (hK : 0 < K) (rt : RTState) :
    iterCycles (endsAt K) K (0, rt) = (K, end_game rt) := by
  obtain ⟨m, rfl⟩ : ∃ m, K = m + 1 := ⟨K - 1, by omega⟩
  rw [iterCycles_succ_last, endsAt_iter (m + 1) m 0 rt (by omega)]
  simp [cycleStep, endsAt, end_game]

theorem create_not_mem_stepDrawTrace : ∀ k, Event.create ∉ stepDrawTrace k := by
  intro k
  induction k with
  | zero => simp [stepDrawTrace]
  | succ k ih => simp [stepDrawTrace, ih]

/-! ### The claims -/

/-- C1 (counterexample): the game logic `endsAt max_steps` calls `end_game`
during its 1000th step-hook invocation, i.e. during the 1000th step/draw
cycle — witnessed by the completion flag being set in the final runtime
state — yet the process exits with status `1`, not `0`: the driver tests
the step ceiling inside the loop body, before re-testing the completion
flag. -/
theorem C1_counterexample :
    (main (endsAt max_steps) 0).rt.game_ended = true ∧
    (main (endsAt max_steps) 0).num_steps = max_steps ∧
    (main (endsAt max_steps) 0).exitCode = 1 := by
  have hb : ∀ j, j < max_steps →
      (iterCycles (endsAt max_steps) j ((0 : Nat), RTState.init)).2.game_ended
        = false := by
    intro j hj
    rw [endsAt_iter max_steps j 0 RTState.init (by omega)]
    rfl
  have hm := mainLoop_maxed (endsAt max_steps) max_steps 0 0 RTState.init
    (by decide) (by omega) hb
  rw [endsAt_hits max_steps (by decide) RTState.init] at hm
  have hmain : main (endsAt max_steps) 0 =
      consCreate (mainLoop (endsAt max_steps) 0 RTState.init 0) := rfl
  rw [hmain, hm]
  refine ⟨rfl, rfl, rfl⟩

/-- C1 (amended): after each step/draw iteration the driver checks the step
ceiling first, inside the loop body; the completion flag is only re-tested
at the top of the next iteration.  Hence whenever the flag is unset at
every check performed with the counter still below the ceiling — even if
the hooks set it during the 1000th cycle — the process exits with status
`1` after `max_steps` cycles with the diagnostic on the error stream. -/
theorem C1_amended_ceiling_checked_first {σ : Type} (g : GameLogic σ)
    (init : σ)
    (h : ∀ j, j < max_steps → endedAfter g init j = false) :
    (main g init).exitCode = 1 ∧ (main g init).num_steps = max_steps ∧
      (main g init).err = [failureMsg] := by
  have hm := mainLoop_maxed g max_steps 0 (g.create init RTState.init).1
    (g.create init RTState.init).2 (by decide) (by omega)
    (fun j hj => h j hj)
  rw [Prod.mk.eta] at hm
  refine ⟨?_, ?_, ?_⟩ <;> simp [main, consCreate, hm]

/-- C1 (witness for the amended theorem), at the game logic that calls
`end_game` during the 1000th cycle. -/
theorem C1_witness :
    (∀ j, j < max_steps → endedAfter (endsAt max_steps) 0 j = false) ∧
    ((main (endsAt max_steps) 0).exitCode = 1 ∧
      (main (endsAt max_steps) 0).num_steps = max_steps ∧
      (main (endsAt max_steps) 0).err = [failureMsg]) := by
  have h : ∀ j, j < max_steps → endedAfter (endsAt max_steps) 0 j = false := by
    intro j hj
    show (iterCycles (endsAt max_steps) j
      ((endsAt max_steps).create 0 RTState.init)).2.game_ended = false
    rw [show (endsAt max_steps).create 0 RTState.init
      = ((0 : Nat), RTState.init) from rfl]
    rw [endsAt_iter max_steps j 0 RTState.init (by omega)]
    rfl
  exact ⟨h, C1_amended_ceiling_checked_first (endsAt max_steps) 0 h⟩

/-- C2: for game logic whose hooks first set the completion flag during
cycle `k` with `k < 1000` (flag unset at every earlier check, set after the
`k`-th cycle), the process exits with status 0 after exactly `k` step/draw
cycles and writes nothing to the error stream. -/
theorem C2_ends_within_budget_exit0 {σ : Type} (g : GameLogic σ) (init : σ)
    (k : Nat) (hk : k < max_steps)
    (hbefore : ∀ j, j < k → endedAfter g init j = false)
    (hend : endedAfter g init k = true) :
    (main g init).exitCode = 0 ∧ (main g init).num_steps = k ∧
      (main g init).err = [] ∧
      (main g init).trace = Event.create :: stepDrawTrace k := by
  have hm := mainLoop_success g k 0 (g.create init RTState.init).1
    (g.create init RTState.init).2 (by omega)
    (fun j hj => hbefore j hj) hend
  rw [Prod.mk.eta] at hm
  refine ⟨?_, ?_, ?_, ?_⟩ <;> simp [main, consCreate, hm]

/-- C2 (witness): the spec's concrete scenario — the step hook calls
`end_game` on its 5th invocation — exits 0 after exactly 5 cycles. -/
theorem C2_witness :
    ((5 : Nat) < max_steps ∧ (∀ j, j < 5 → endedAfter (endsAt 5) 0 j = false)
      ∧ endedAfter (endsAt 5) 0 5 = true) ∧
    ((main (endsAt 5) 0).exitCode = 0 ∧ (main (endsAt 5) 0).num_steps = 5 ∧
      (main (endsAt 5) 0).err = [] ∧
      (main (endsAt 5) 0).trace = Event.create :: stepDrawTrace 5) :=
  ⟨⟨by decide, by decide, by decide⟩,
    C2_ends_within_budget_exit0 (endsAt 5) 0 5 (by decide) (by decide)
      (by decide)⟩

/-- C3: for game logic whose hooks never set the completion flag, the
process exits with status 1 after exactly 1000 step/draw cycles and the
error stream holds exactly the fixed diagnostic line. -/
theorem C3_never_ends_exit1 {σ : Type} (g : GameLogic σ) (init : σ)
    (h : ∀ j, endedAfter g init j = false) :
    (main g init).exitCode = 1 ∧ (main g init).num_steps = max_steps ∧
      (main g init).err = [failureMsg] ∧
      (main g init).trace = Event.create :: stepDrawTrace max_steps := by
  have hm := mainLoop_maxed g max_steps 0 (g.create init RTState.init).1
    (g.create init RTState.init).2 (by decide) (by omega) (fun j hj => h j)
  rw [Prod.mk.eta] at hm
  refine ⟨?_, ?_, ?_, ?_⟩ <;> simp [main, consCreate, hm]

/-- C3 (witness): the all-no-op game logic exits 1 after 1000 cycles with
the diagnostic. -/
theorem C3_witness :
    (∀ j, endedAfter noopGame () j = false) ∧
    ((main noopGame ()).exitCode = 1 ∧
      (main noopGame ()).num_steps = max_steps ∧
      (main noopGame ()).err = [failureMsg] ∧
      (main noopGame ()).trace = Event.create :: stepDrawTrace max_steps) := by
  have h : ∀ j, endedAfter noopGame () j = false := by
    intro j
    show (iterCycles noopGame j
      (noopGame.create () RTState.init)).2.game_ended = false
    rw [noopGame_iter j (noopGame.create () RTState.init)]
    rfl
  exact ⟨h, C3_never_ends_exit1 noopGame () h⟩

/-- C4: the completion flag starts false, `end_game` sets it true and is
idempotent, and every other runtime operation leaves it unchanged — its
evolution is monotone false→true. -/
theorem C4_flag_monotone :
    RTState.init.game_ended = false ∧
    (∀ s : RTState, (end_game s).game_ended = true) ∧
    (∀ s : RTState, end_game (end_game s) = end_game s) ∧
    (∀ (x : Int) (s : RTState), (print x s).game_ended = s.game_ended) ∧
    (∀ (b : Bool) (s : RTState), (printb b s).game_ended = s.game_ended) ∧
    (∀ (x : Float) (s : RTState),
      (print_float x s).game_ended = s.game_ended) ∧
    (∀ (x : String) (s : RTState),
      (printstr x s).game_ended = s.game_ended) ∧
    (∀ (h : Handle) (s : RTState),
      (play_sound h s).game_ended = s.game_ended) ∧
    (∀ (h : Handle) (s : RTState),
      (loop_sound h s).game_ended = s.game_ended) ∧
    (∀ (h : Handle) (x y : Float) (s : RTState),
      (set_sprite_position h x y s).game_ended = s.game_ended) ∧
    (∀ (h : Handle) (s : RTState),
      (draw_sprite h s).game_ended = s.game_ended) :=
  ⟨rfl, fun s => rfl, fun s => rfl, fun x s => rfl, fun b s => rfl,
    fun x s => rfl, fun x s => rfl, fun h s => rfl, fun h s => rfl,
    fun h x y s => rfl, fun h s => rfl⟩

/-- C5: on every run the ghost trace starts with the single create event
and no create event occurs later: the create hook runs exactly once, before
any step or draw invocation. -/
theorem C5_create_once_first {σ : Type} (g : GameLogic σ) (init : σ) :
    ∃ t, (main g init).trace = Event.create :: t ∧ Event.create ∉ t := by
  obtain ⟨k, hn, ht⟩ := mainLoop_shape g max_steps 0
    (g.create init RTState.init).1 (g.create init RTState.init).2 (by omega)
  exact ⟨stepDrawTrace k, by simp [main, consCreate, ht],
    create_not_mem_stepDrawTrace k⟩

/-- C6: the trace after the create event consists of `k` step-then-draw
pairs in order and the final loop counter equals `k`: each iteration runs
the step hook, then the draw hook, then increments the counter once, so
after `n` completed iterations the counter is `n`. -/
theorem C6_step_draw_increment_order {σ : Type} (g : GameLogic σ)
    (init : σ) :
    ∃ k, (main g init).trace = Event.create :: stepDrawTrace k ∧
      (main g init).num_steps = k := by
  obtain ⟨k, hn, ht⟩ := mainLoop_shape g max_steps 0
    (g.create init RTState.init).1 (g.create init RTState.init).2 (by omega)
  exact ⟨k, by simp [main, consCreate, ht], by simp [main, consCreate, hn]⟩

/-- C7: the sound-load and image-load operations return the null handle for
every input filename. -/
theorem C7_load_returns_null :
    ∀ filename : String,
      load_sound filename = none ∧ load_image filename = none :=
  fun filename => ⟨rfl, rfl⟩

/-- C8: the key-pressed query returns false for every key code, negative,
zero or large. -/
theorem C8_key_pressed_false : ∀ code : Int, key_pressed code = false :=
  fun code => rfl

/-- C9: sound play, sound loop, sprite set-position and sprite draw accept
any handle (the null handle included) and return the runtime state
unchanged — in particular the completion flag and the output streams are
untouched, and the driver's step counter is not visible to them at all. -/
theorem C9_noop_operations :
    ∀ (h : Handle) (x y : Float) (s : RTState),
      play_sound h s = s ∧ loop_sound h s = s ∧
        set_sprite_position h x y s = s ∧ draw_sprite h s = s :=
  fun h x y s => ⟨rfl, rfl, rfl, rfl⟩

/-- C10: when the create hook itself sets the completion flag, the loop
condition fails immediately: no step or draw invocation happens, the
counter stays 0, the exit status is 0 and the error stream is empty. -/
theorem C10_create_ends_zero_cycles {σ : Type} (g : GameLogic σ) (init : σ)
    (h : (g.create init RTState.init).2.game_ended = true) :
    (main g init).exitCode = 0 ∧ (main g init).num_steps = 0 ∧
      (main g init).trace = [Event.create] ∧ (main g init).err = [] := by
  have hm := mainLoop_of_ended g (g.create init RTState.init).1
    (g.create init RTState.init).2 0 h
  refine ⟨?_, ?_, ?_, ?_⟩ <;> simp [main, consCreate, hm]

/-- C10 (witness): a game logic whose create hook calls `end_game`. -/
theorem C10_witness :
    ((endsInCreate.create () RTState.init).2.game_ended = true) ∧
    ((main endsInCreate ()).exitCode = 0 ∧
      (main endsInCreate ()).num_steps = 0 ∧
      (main endsInCreate ()).trace = [Event.create] ∧
      (main endsInCreate ()).err = []) :=
  ⟨rfl, C10_create_ends_zero_cycles endsInCreate () rfl⟩

end LibTesterGame
